import Mathlib

/-!
Verification of the CredGen loan-origination pipeline (Ashmeet04Singh/CRED_GEN).

This file gives a shallow embedding, in Lean 4, of the decision pipeline of the
repository: the underwriting agent (backend/underwriting.py), the sales/offer
agent (backend/sales_agent.py), the rule-based fraud scorer
(backend/fraud_detection.py), the conversation state machine of the master
agent (backend/master_agent.py), and the documentation endpoints (app.py and
backend/app.py).  Theorems about these definitions settle the behavioural
claims about the program.

Modelling conventions:
* Python floats are idealised as exact rationals (`ℚ`); every numeric literal
  appearing in the source (0.5, 9.5, 0.8, ...) is exactly representable in
  binary floating point, so the branch structure of the code is preserved.
  `round(x, n)` is modelled by exact half-to-even rounding (`pyRound`).
  Because the arithmetic of `Rat` in core Lean is `@[irreducible]`, the
  embedding computes with the evaluable wrappers `qadd`/`qsub`/`qmul`/`qdiv`/
  `qpow` below, each proved equal to the corresponding field operation on `ℚ`.
* Python dictionaries with a fixed key set become structures; a key that may
  be absent (as opposed to present with value `None`) is modelled by an outer
  `Option`.  Code that would raise (KeyError / TypeError) is modelled with
  `Except`/`Option` results.
* External collaborators that the spec places out of scope (the ML risk
  model, the sentence-embedding similarity scorer, free-text entity
  extraction, text rendering) are parameters of the embedded functions.
-/

namespace CredGen

/-! ## Evaluable rational arithmetic -/

/-- Rational addition that the kernel can evaluate (core `Rat.add` is
`@[irreducible]`); proved equal to `+` in `qadd_eq`. -/
def qadd (a b : ℚ) : ℚ := mkRat (a.num * b.den + b.num * a.den) (a.den * b.den)

/-- Evaluable rational subtraction; proved equal to `-` in `qsub_eq`. -/
def qsub (a b : ℚ) : ℚ := mkRat (a.num * b.den - b.num * a.den) (a.den * b.den)

/-- Evaluable rational multiplication; proved equal to `*` in `qmul_eq`. -/
def qmul (a b : ℚ) : ℚ := mkRat (a.num * b.num) (a.den * b.den)

/-- Evaluable rational inverse; proved equal to `⁻¹` in `qinv_eq`. -/
def qinv (a : ℚ) : ℚ := mkRat (Int.sign a.num * a.den) a.num.natAbs

/-- Evaluable rational division; proved equal to `/` in `qdiv_eq`. -/
def qdiv (a b : ℚ) : ℚ := qmul a (qinv b)

/-- Evaluable rational power; proved equal to `^` in `qpow_eq`. -/
def qpow (a : ℚ) : ℕ → ℚ
  | 0 => 1
  | n + 1 => qmul a (qpow a n)

/-! ## Python primitives -/

/-- Python `round(x)` / `round(x, 0)`: round half to even, on exact rationals. -/
def pyRound (q : ℚ) : ℤ :=
  let f := ⌊q⌋
  let r := qsub q (f : ℚ)
  if r < mkRat 1 2 then f
  else if mkRat 1 2 < r then f + 1
  else if f % 2 = 0 then f else f + 1

/-- Python `round(x, n)` for `n > 0`: scale, round half to even, unscale. -/
def roundTo (q : ℚ) (n : ℕ) : ℚ :=
  qdiv ((pyRound (qmul q (qpow 10 n)) : ℤ) : ℚ) (qpow 10 n)

/-- Python `int(x)`: truncation toward zero. -/
def pyInt (q : ℚ) : ℤ :=
  if 0 ≤ q then ⌊q⌋ else ⌈q⌉

/-- Python `str.strip()`: drop leading and trailing whitespace.  (Core
`String.trim` is position-based and does not evaluate in the kernel, so the
embedding works on the character list.) -/
def pytrim (s : String) : String :=
  ⟨((s.data.dropWhile Char.isWhitespace).reverse.dropWhile
    Char.isWhitespace).reverse⟩

/-- Python `str.lower()`. -/
def pylower (s : String) : String :=
  ⟨s.data.map Char.toLower⟩

/-- Split a character list on a separator character (Python `str.split(sep)`,
also core `String.splitOn` for a one-character separator). -/
def splitOnChar (sep : Char) : List Char → List (List Char)
  | [] => [[]]
  | c :: rest =>
    let r := splitOnChar sep rest
    if c = sep then [] :: r
    else
      match r with
      | [] => [[c]]
      | h :: t => (c :: h) :: t

/-- Parse a nonempty all-digit character list as a natural number. -/
def digitsToNat? (l : List Char) : Option ℕ :=
  if l.isEmpty then none
  else if l.all Char.isDigit then
    some (l.foldl (fun acc c => 10 * acc + (c.toNat - 48)) 0)
  else none

/-- Is `n` a contiguous sublist (substring, over characters) of `h`? -/
def isInfixChars : List Char → List Char → Bool
  | n, [] => n.isEmpty
  | n, c :: h => n.isPrefixOf (c :: h) || isInfixChars n h

/-- Python `needle in haystack` on strings. -/
def containsSubstr (haystack needle : String) : Bool :=
  isInfixChars needle.data haystack.data

/-- Two-digit zero padding, used by fixed-point formatting. -/
def pad2 (k : ℕ) : String :=
  if k < 10 then "0" ++ toString k else toString k

/-- Python `f"..{x:.2f}.."`: fixed-point rendering with two decimals. -/
def format2 (q : ℚ) : String :=
  let n := pyRound (qmul q 100)
  if n < 0 then
    "-" ++ toString ((-n).toNat / 100) ++ "." ++ pad2 ((-n).toNat % 100)
  else
    toString (n.toNat / 100) ++ "." ++ pad2 (n.toNat % 100)

/-! ## backend/underwriting.py — class UnderwritingAgent -/

namespace UnderwritingAgent

def MIN_AGE : ℚ := 21
def MAX_AGE : ℚ := 60
def MIN_INCOME : ℚ := 300000
def MAX_LOAN : ℚ := 2000000

/-- `RISK_THRESHOLD_REJECT = 0.80`. -/
def RISK_THRESHOLD_REJECT : ℚ := mkRat 4 5

/-- The conversational entities consumed by `perform_underwriting`.
`entities` is a Python dict; the three keys used by the hard gates are read
with `entities.get(key, 0)`, so an absent key is a defaulted value, never an
error.  (The remaining keys feed only `_preprocess_input`, which together with
the external model is abstracted into the `model` parameter below.) -/
structure UwEntities where
  age : Option ℚ := none
  income : Option ℚ := none
  loan_amount : Option ℚ := none
deriving DecidableEq

/-- The dict returned by `perform_underwriting` / `_hard_reject`. -/
structure UwResult where
  approval_status : Bool
  risk_score : ℚ
  interest_rate : Option ℚ
  reason : String
deriving DecidableEq

/-- `_hard_reject`: the standardized rejection response. -/
def hard_reject (reason : String) : UwResult :=
  { approval_status := false
    risk_score := 1
    interest_rate := none
    reason := "HARD REJECTED: " ++ reason }

/-- `_mock_interest_rate`: BASE_RATE + risk · (MAX_RATE − BASE_RATE), capped
at MAX_RATE and rounded to 2 decimals (BASE_RATE = 9.5, MAX_RATE = 18.0). -/
def mock_interest_rate (risk_score : ℚ) : ℚ :=
  let BASE_RATE : ℚ := mkRat 19 2
  let MAX_RATE : ℚ := 18
  let rate := qadd BASE_RATE (qmul risk_score (qsub MAX_RATE BASE_RATE))
  roundTo (min rate MAX_RATE) 2

/-- `perform_underwriting`, instrumented with a flag recording whether phase 2
(the model call) was reached.  The risk-scoring collaborator
(`_preprocess_input` + `self.model.predict_proba`) is the black-box parameter
`model`; the source's `try/except` fallback assigns 0.5 when the model call
fails, modelled by `Option.getD (mkRat 1 2)`.  The f-string reason texts are
the source strings with the policy constants substituted in. -/
def perform_underwritingT (model : UwEntities → Option ℚ) (e : UwEntities) :
    UwResult × Bool :=
  let age := e.age.getD 0
  let income := e.income.getD 0
  let loan_amount := e.loan_amount.getD 0
  if age < MIN_AGE ∨ age > MAX_AGE then
    (hard_reject "Age outside policy: 21-60", false)
  else if income < MIN_INCOME then
    (hard_reject "Income below minimum policy of ₹300,000", false)
  else if loan_amount > MAX_LOAN ∨ loan_amount < 50000 then
    (hard_reject "Loan amount outside policy range", false)
  else
    let risk_score := (model e).getD (mkRat 1 2)
    if risk_score > RISK_THRESHOLD_REJECT then
      (hard_reject ("AI Risk Score (" ++ format2 risk_score ++
        ") exceeds policy threshold (0.8)"), true)
    else
      ({ approval_status := true
         risk_score := roundTo risk_score 3
         interest_rate := some (mock_interest_rate risk_score)
         reason := "Approved based on policy and low AI risk score." }, true)

/-- `perform_underwriting`: the result returned to the caller. -/
def perform_underwriting (model : UwEntities → Option ℚ) (e : UwEntities) :
    UwResult :=
  (perform_underwritingT model e).1

end UnderwritingAgent

open UnderwritingAgent

/-! ## backend/sales_agent.py — class SalesAgent -/

namespace SalesAgent

/-- `BASE_RATE = 9.5`: absolute minimum interest rate. -/
def BASE_RATE : ℚ := mkRat 19 2

def MAX_RATE : ℚ := 18

/-- `NEGOTIATION_DECREMENT = 0.5`. -/
def NEGOTIATION_DECREMENT : ℚ := mkRat 1 2

/-- `DEFAULT_ALTERNATIVE_OFFER_FACTOR = 0.6`. -/
def DEFAULT_ALTERNATIVE_OFFER_FACTOR : ℚ := mkRat 3 5

def DEFAULT_TENURE_MONTHS : ℕ := 36

/-- `calculate_interest`: maps the risk score to a rate tier
(RISK_TIERS low = 0.2, medium = 0.5, high = 0.8), capped at MAX_RATE. -/
def calculate_interest (risk_score : ℚ) : ℚ :=
  let rate :=
    if risk_score ≤ mkRat 1 5 then BASE_RATE
    else if risk_score ≤ mkRat 1 2 then qadd BASE_RATE (mkRat 5 2)
    else if risk_score ≤ mkRat 4 5 then qadd BASE_RATE (mkRat 11 2)
    else MAX_RATE
  min rate MAX_RATE

/-- `_calculate_emi`: monthly rate r = annual/12/100; P/n if r = 0 (returned
unrounded), else the amortization formula rounded with Python `round(·, 0)`.
(Python raises ZeroDivisionError for tenure 0 in the r = 0 branch; in `ℚ`
division by zero yields 0 — no claim touches that input.) -/
def calculate_emi (principal rate_annual : ℚ) (tenure_months : ℕ) : ℚ :=
  let rate_monthly := qdiv (qdiv rate_annual 12) 100
  if rate_monthly = 0 then qdiv principal (tenure_months : ℚ)
  else
    let power_term := qpow (qadd 1 rate_monthly) tenure_months
    let emi := qdiv (qmul (qmul principal rate_monthly) power_term)
      (qsub power_term 1)
    (pyRound emi : ℚ)

/-- The machine-readable part of the dict built by `format_offer_message`.
The free-text `message` (and the EMI figure, which appears only inside the
message text) is elided: the spec places text rendering out of scope and makes
`type` the authoritative signal. -/
structure OfferRes where
  offer_type : String
  action : String
  interest_rate : Option ℚ
  new_amount : Option ℚ := none
deriving DecidableEq

/-- `format_offer_message`: dispatch on the offer type, producing the action
flag and the machine-readable fields of the returned dict. -/
def format_offer_message (offer_type : String) (rate : Option ℚ)
    (new_principal : Option ℚ) : OfferRes :=
  if offer_type = "approved" then
    { offer_type, action := "wait_for_offer_decision", interest_rate := rate }
  else if offer_type = "negotiated" then
    { offer_type, action := "wait_for_offer_decision", interest_rate := rate }
  else if offer_type = "rejected_alternative" then
    { offer_type, action := "wait_for_offer_decision", interest_rate := rate
      new_amount := new_principal }
  else if offer_type = "rejected_final" then
    { offer_type, action := "end_session", interest_rate := rate }
  else
    { offer_type, action := "end_session", interest_rate := none }

/-- The slice of the master-agent state dict read and written by
`generate_offer` (`entities.loan_amount`, `entities.tenure`, `risk_score`,
`approval_status`, `interest_rate`). -/
structure SalesState where
  loan_amount : Option ℚ
  tenure : Option ℕ
  risk_score : Option ℚ
  approval_status : Option Bool
  interest_rate : Option ℚ
deriving DecidableEq

/-- The negotiation step of `generate_offer` (source lines 133-134): reduce
the current rate by the fixed decrement, but never below BASE_RATE. -/
def negotiated_rate (r : ℚ) : ℚ :=
  max BASE_RATE (qsub r NEGOTIATION_DECREMENT)

/-- `generate_offer`: rejection counseling when not approved, otherwise the
standard offer, optionally negotiated; on negotiation the new rate is written
back into the state.  `none` models the Python `TypeError` raised when the
needed `risk_score`/`interest_rate` is `None` on the path that uses it. -/
def generate_offer (s : SalesState) (negotiation_request : Bool) :
    Option (OfferRes × SalesState) :=
  let principal := s.loan_amount.getD 0
  let underwriting_approved := s.approval_status.getD false
  if underwriting_approved = false then
    match s.risk_score with
    | none => none
    | some rs =>
      let new_principal := pyInt (qmul principal DEFAULT_ALTERNATIVE_OFFER_FACTOR)
      let interest_rate := calculate_interest rs
      if new_principal < 50000 then
        some (format_offer_message "rejected_final" (some interest_rate) none, s)
      else
        some (format_offer_message "rejected_alternative" (some interest_rate)
          (some (new_principal : ℚ)), s)
  else
    match s.interest_rate with
    | none => none
    | some rate₀ =>
      let interest_rate :=
        if negotiation_request then negotiated_rate rate₀ else rate₀
      let s₂ :=
        if negotiation_request then { s with interest_rate := some interest_rate }
        else s
      some (format_offer_message
        (if negotiation_request then "negotiated" else "approved")
        (some interest_rate) none, s₂)

end SalesAgent

open SalesAgent

/-- Modelled from the spec: the closed-form amortization formula
`EMI = P·r·(1+r)^n / ((1+r)^n − 1)` with monthly rate `r = annualRate/12/100`,
`EMI = P/n` when `r = 0`, rounded to the currency's smallest unit. -/
def spec_emi (P rate : ℚ) (n : ℕ) : ℚ :=
  let r := rate / 12 / 100
  if r = 0 then (pyRound (P / n) : ℚ)
  else (pyRound (P * r * (1 + r) ^ n / ((1 + r) ^ n - 1)) : ℚ)

/-! ## backend/fraud_detection.py — fraud_score and its component checks -/

namespace FraudDetection

/-- A calendar date (used for `datetime.today()` and parsed dates of birth). -/
structure Date where
  year : ℕ
  month : ℕ
  day : ℕ
deriving DecidableEq

/-- Simplified model of the source's two `datetime.strptime` attempts
("%Y-%m-%d", then "%d-%m-%Y") with basic range validation of month and day;
an unparsable string yields `none` exactly as the source returns 0 on
`ValueError`. -/
def parseDOB (s : String) : Option Date :=
  match splitOnChar (Char.ofNat 0x2d) s.data with
  | [a, b, c] =>
    match digitsToNat? a, digitsToNat? b, digitsToNat? c with
    | some x, some y, some z =>
      if 1 ≤ y ∧ y ≤ 12 ∧ 1 ≤ z ∧ z ≤ 31 then some ⟨x, y, z⟩
      else if 1 ≤ y ∧ y ≤ 12 ∧ 1 ≤ x ∧ x ≤ 31 then some ⟨z, y, x⟩
      else none
    | _, _, _ => none
  | _ => none

/-- Python tuple comparison `(a₁, a₂) < (b₁, b₂)`: lexicographic. -/
def tupLt (a b : ℕ × ℕ) : Bool :=
  if a.1 < b.1 then true
  else if a.1 = b.1 then decide (a.2 < b.2)
  else false

/-- The pairwise similarity scores over `i < j` of the cleaned name list
(source: nested loops building `score_ind`).  `sim` models the external
`rapidfuzz` ratio `fuzz.token_set_ratio(·,·) / 100`. -/
def pairSims (sim : String → String → ℚ) : List String → List ℚ
  | [] => []
  | x :: xs => xs.map (sim x) ++ pairSims sim xs

/-- Evaluable sum of a list of rationals (Python `sum`). -/
def qsum : List ℚ → ℚ
  | [] => 0
  | x :: xs => qadd x (qsum xs)

/-- Python `min` over a nonempty list (the source only calls it on nonempty
`score_ind`; the `[]` case is arbitrary). -/
def listMin : List ℚ → ℚ
  | [] => 0
  | x :: xs => xs.foldl min x

/-- `name_score`: clean the variants (drop falsy / whitespace-only, strip and
lowercase), return 1.0/"LOW" when fewer than two remain, otherwise the mean of
all pairwise similarities with flag "HIGH" iff the minimum pairwise similarity
is below 0.8. -/
def name_score (sim : String → String → ℚ) (name_list : List String) :
    ℚ × String :=
  let cleaned := (name_list.filter
    (fun n => !(n = "") && !(pytrim n = ""))).map (fun n => pylower (pytrim n))
  if cleaned.length < 2 then (1, "LOW")
  else
    let score_ind := pairSims sim cleaned
    let flag := if listMin score_ind < mkRat 4 5 then "HIGH" else "LOW"
    (qdiv (qsum score_ind) (score_ind.length : ℚ), flag)

/-- `age_score`: 0 for missing/blank/unparsable dob or age outside [18, 80];
0.5 for the borderline bands [18, 21] and [60, 80]; 1 otherwise.  `today` is
the evaluation date (`datetime.today()`). -/
def age_score (today : Date) (dob : Option String) : ℚ :=
  match dob with
  | none => 0
  | some s =>
    if pytrim s = "" then 0
    else
      match parseDOB (pytrim s) with
      | none => 0
      | some birth =>
        let age : ℤ := (today.year : ℤ) - (birth.year : ℤ) -
          (if tupLt (today.month, today.day) (birth.month, birth.day) then 1 else 0)
        if 18 ≤ age ∧ age ≤ 80 then
          (if age ≤ 21 ∨ 60 ≤ age then mkRat 1 2 else 1)
        else 0

/-- `income_score`: absent or nonpositive ⇒ (0, HIGH); strictly below 10,000
or strictly above 10,000,000 ⇒ (0.3, MEDIUM); otherwise (1, LOW). -/
def income_score (declared_income : Option ℚ) : ℚ × String :=
  match declared_income with
  | none => (0, "HIGH")
  | some inc =>
    if inc ≤ 0 then (0, "HIGH")
    else if inc > 10000000 ∨ inc < 10000 then (mkRat 3 10, "MEDIUM")
    else (1, "LOW")

instance : DecidableEq (Except String ℚ) := fun a b =>
  match a, b with
  | .error x, .error y =>
    if h : x = y then isTrue (by rw [h])
    else isFalse (fun hh => h (by cases hh; rfl))
  | .ok x, .ok y =>
    if h : x = y then isTrue (by rw [h])
    else isFalse (fun hh => h (by cases hh; rfl))
  | .error _, .ok _ => isFalse (fun hh => Except.noConfusion hh)
  | .ok _, .error _ => isFalse (fun hh => Except.noConfusion hh)

/-- The `cust_data` dict.  An outer `none` models an absent key (Python
raises `KeyError` on subscript); the inner `Option` models a present key whose
value is `None`. -/
structure CustData where
  name_list : Option (Option (List String))
  dob : Option (Option String)
  declared_income : Option (Option ℚ)

/-- `fraud_score`: the mean of the three component scores, evaluated in
Python's left-to-right order; an absent dict key raises `KeyError`, and a
`None` name list raises `TypeError` inside `name_score` (iterating `None`),
both modelled as `Except.error`. -/
def fraud_score (sim : String → String → ℚ) (today : Date) (cust : CustData) :
    Except String ℚ :=
  match cust.name_list with
  | none => .error "KeyError: name_list"
  | some none => .error "TypeError: NoneType name_list is not iterable"
  | some (some names) =>
    let ns := (name_score sim names).1
    match cust.dob with
    | none => .error "KeyError: dob"
    | some dobv =>
      let sa := age_score today dobv
      match cust.declared_income with
      | none => .error "KeyError: declared_income"
      | some inc =>
        .ok (qdiv (qadd (qadd ns sa) (income_score inc).1) 3)

end FraudDetection

open FraudDetection

/-! ## backend/master_agent.py — conversation state machine and callbacks -/

namespace MasterAgent

/-- `ConversationStage`. -/
inductive Stage
  | greeting
  | collecting
  | underwriting
  | offer
  | rejection_counseling
  | kyc
  | documentation
  | closed
  | fraud_check
deriving DecidableEq

/-- `IntentType`. -/
inductive Intent
  | greeting
  | loan_application
  | rate_inquiry
  | negotiate_terms
  | accept_offer
  | reject_offer
  | help_general
  | exit
  | unclear
  | provide_info
deriving DecidableEq

/-- The fixed entity keys: `REQUIRED_FIELDS ++ KYC_FIELDS`. -/
inductive Field
  | name
  | loan_amount
  | tenure
  | age
  | income
  | employment_type
  | purpose
  | pan
  | aadhaar
  | pincode
  | address
deriving DecidableEq

def REQUIRED_FIELDS : List Field :=
  [.name, .loan_amount, .tenure, .age, .income, .employment_type, .purpose]

def KYC_FIELDS : List Field := [.pan, .aadhaar, .pincode, .address]

/-- The per-session state dict.  Entity values are abstracted to strings (the
claims touched by this machine depend only on presence); `current_offer` keeps
only a presence tag for the offer dict whose rendering is out of scope. -/
structure MasterState where
  stage : Stage
  last_intent : Option Intent
  entities : Field → Option String
  risk_score : Option ℚ
  approval_status : Option Bool
  interest_rate : Option ℚ
  offer_accepted : Bool
  missing_fields : List Field
  missing_kyc_fields : List Field
  current_offer : Option String
  attempts : ℕ
  fraud_check_passed : Bool

/-- `_initialize_state`: the fresh session state. -/
def initialize_state : MasterState :=
  { stage := .greeting
    last_intent := none
    entities := fun _ => none
    risk_score := none
    approval_status := none
    interest_rate := none
    offer_accepted := false
    missing_fields := REQUIRED_FIELDS
    missing_kyc_fields := KYC_FIELDS
    current_offer := none
    attempts := 0
    fraud_check_passed := false }

/-- The entity-merging loop of `update_state`: each provided non-`None` value
is written into `entities` and its key removed from both missing-field sets. -/
def apply_entities : List (Field × Option String) → MasterState → MasterState
  | [], st => st
  | kv :: rest, st =>
    apply_entities rest
      (match kv.2 with
       | none => st
       | some v =>
         { st with
           entities := fun f => if f = kv.1 then some v else st.entities f
           missing_fields := st.missing_fields.erase kv.1
           missing_kyc_fields := st.missing_kyc_fields.erase kv.1 })

/-- `_handle_state_transition`: the completeness conditions for Collecting and
Kyc take precedence; otherwise the per-stage intent table applies (stages with
no entry — Underwriting, Documentation, Closed, and Fraud_check whose only key
is the non-intent condition `"fraud_passed"` — leave the stage unchanged; no
stage defines a `"default"` entry). -/
def handle_state_transition (intent : Intent) (st : MasterState) : MasterState :=
  if st.stage = .collecting ∧ st.missing_fields = [] then
    { st with stage := .underwriting }
  else if st.stage = .kyc ∧ st.missing_kyc_fields = [] then
    { st with stage := .fraud_check }
  else
    match st.stage, intent with
    | .greeting, .loan_application => { st with stage := .collecting }
    | .greeting, .provide_info => { st with stage := .collecting }
    | .collecting, .loan_application => { st with stage := .collecting }
    | .collecting, .provide_info => { st with stage := .collecting }
    | .offer, .accept_offer => { st with stage := .kyc }
    | .offer, .reject_offer => { st with stage := .closed }
    | .offer, .negotiate_terms => { st with stage := .offer }
    | .rejection_counseling, .loan_application => { st with stage := .collecting }
    | .rejection_counseling, .negotiate_terms => { st with stage := .collecting }
    | .kyc, .provide_info => { st with stage := .kyc }
    | _, _ => st

/-- `update_state`: merge entities, record the intent, count the attempt, then
run the state machine. -/
def update_state (ents : List (Field × Option String)) (intent : Intent)
    (st : MasterState) : MasterState :=
  let st₁ := apply_entities ents st
  let st₂ := { st₁ with last_intent := some intent, attempts := st₁.attempts + 1 }
  handle_state_transition intent st₂

/-- `set_underwriting_result`: stores the scores and moves the stage to Offer
or RejectionCounseling unconditionally (no check of the current stage). -/
def set_underwriting_result (risk_score : ℚ) (approval_status : Bool)
    (interest_rate : Option ℚ) (offer_details : Option String)
    (st : MasterState) : MasterState :=
  let s := { st with
    risk_score := some risk_score
    approval_status := some approval_status
    interest_rate := interest_rate }
  if approval_status then
    match offer_details with
    | some od => { s with stage := .offer, current_offer := some od }
    | none => { s with stage := .offer }
  else { s with stage := .rejection_counseling }

/-- `set_fraud_check_result`: records the outcome and moves the stage to
Documentation or Closed unconditionally (the failure notice text is kept as an
opaque tag). -/
def set_fraud_check_result (passed : Bool) (st : MasterState) : MasterState :=
  let s := { st with fraud_check_passed := passed }
  if passed then { s with stage := .documentation }
  else { s with stage := .closed, current_offer := some "verification_issue_notice" }

/-- `reset_conversation`: a fresh state replaces the old one. -/
def reset_conversation : MasterState := initialize_state

/-- The operations that mutate a session's `MasterState`: a handled user turn
(`handle` → `update_state`, which runs the stage transition), the two engine
callbacks, and an explicit reset. -/
inductive MOp
  | user (ents : List (Field × Option String)) (intent : Intent)
  | underwriting_result (risk : ℚ) (approval : Bool) (rate : Option ℚ)
      (offer : Option String)
  | fraud_result (passed : Bool)
  | reset

def apply_op : MOp → MasterState → MasterState
  | .user ents intent, st => update_state ents intent st
  | .underwriting_result r a rate od, st => set_underwriting_result r a rate od st
  | .fraud_result p, st => set_fraud_check_result p st
  | .reset, _ => reset_conversation

/-- The state reached from a freshly initialized session after a sequence of
operations. -/
def run_ops (ops : List MOp) : MasterState :=
  ops.foldl (fun s op => apply_op op s) initialize_state

end MasterAgent

open MasterAgent

/-! ## Documentation endpoints — app.py `/documentation` and
backend/app.py `/generate-letter` -/

/-- The outcome signals of the documentation endpoints (HTTP 400 error codes
vs. success). -/
inductive DocOutcome
  | offer_not_accepted
  | kyc_incomplete
  | letter_generated
deriving DecidableEq

/-- Python truthiness of `entities.get(field)`. -/
def truthy : Option String → Bool
  | none => false
  | some v => !(v = "")

/-- app.py `documentation` (the state-relevant part, given a found session):
reject with `offer_not_accepted` unless `offer_accepted`, then with
`kyc_incomplete` unless pan/aadhaar/address are all truthy, else generate the
letter (rendering elided) and close the stage.  The rejections return before
any mutation, leaving the state unchanged. -/
def documentation (st : MasterState) : DocOutcome × MasterState :=
  if st.offer_accepted = false then (.offer_not_accepted, st)
  else if !(truthy (st.entities .pan) && truthy (st.entities .aadhaar) &&
      truthy (st.entities .address)) then (.kyc_incomplete, st)
  else (.letter_generated, { st with stage := .closed })

/-- backend/app.py `documentation` (route `/generate-letter`): reject unless
`offer_accepted`, else render the letter (elided) and close the stage. -/
def backend_generate_letter (st : MasterState) : DocOutcome × MasterState :=
  if st.offer_accepted = false then (.offer_not_accepted, st)
  else (.letter_generated, { st with stage := .closed })

/-! ### Stage- and flag-preservation lemmas for the state machine -/

/-! ## backend/master_agent.py — detect_intent (intent resolver with cache)

The similarity scorer (SentenceTransformer embeddings), `clean_text`, and the
entity extractor live in external collaborators (`backend/utils/preprocess.py`
is not part of the sources; the spec treats scoring and extraction as
black boxes), so they are parameters of the resolver. -/

namespace MasterAgent

/-- The external collaborators consumed by `detect_intent`: whether the
sentence-embedding model loaded, the per-intent similarity of a (cleaned)
text, `clean_text`, and whether `extract_entities` yields any truthy value. -/
structure ResolverParams where
  modelAvailable : Bool
  sim : String → Intent → ℚ
  clean : String → String
  extractAny : String → Bool

/-- The slice of the agent consulted by `detect_intent`: the session stage and
last intent (read by `_apply_context_boosting`) and `self.intent_cache`.  The
cache is keyed by `hash(text.lower().strip())`, modelled by the normalized
text itself. -/
structure ResolverState where
  stage : Stage
  last_intent : Option Intent
  cache : List (String × (Intent × ℚ))

/-- Dictionary lookup in the intent cache. -/
def lookupA : List (String × (Intent × ℚ)) → String → Option (Intent × ℚ)
  | [], _ => none
  | (k, v) :: rest, key => if k = key then some v else lookupA rest key

/-- The keys of `INTENT_TEMPLATES` (hence of the similarity dict), in
insertion order; `UNCLEAR` has no templates. -/
def SIM_INTENTS : List Intent :=
  [.greeting, .loan_application, .rate_inquiry, .negotiate_terms,
   .accept_offer, .reject_offer, .help_general, .exit, .provide_info]

/-- `_apply_context_boosting`: per-stage multiplicative boosts
(Offer: accept/reject ×1.4, negotiate ×1.3; RejectionCounseling: loan ×1.3,
negotiate ×1.2; Kyc: provide_info ×1.3), then ×1.2 on provide_info when the
last intent was loan_application. -/
def apply_context_boosting (stage : Stage) (last_intent : Option Intent)
    (sims : Intent → ℚ) : Intent → ℚ :=
  fun i =>
    let b :=
      match stage, i with
      | .offer, .accept_offer => qmul (sims i) (mkRat 7 5)
      | .offer, .reject_offer => qmul (sims i) (mkRat 7 5)
      | .offer, .negotiate_terms => qmul (sims i) (mkRat 13 10)
      | .rejection_counseling, .loan_application => qmul (sims i) (mkRat 13 10)
      | .rejection_counseling, .negotiate_terms => qmul (sims i) (mkRat 6 5)
      | .kyc, .provide_info => qmul (sims i) (mkRat 13 10)
      | _, _ => sims i
    if last_intent = some .loan_application ∧ i = .provide_info then
      qmul b (mkRat 6 5)
    else b

/-- Python `max(similarities, key=similarities.get)`: the first key attaining
the maximum, in dict insertion order. -/
def argmaxIntent (f : Intent → ℚ) : Intent :=
  SIM_INTENTS.foldl (fun best i => if f best < f i then i else best) .greeting

/-- `_validate_intent_with_rules`: information-provision override, then
low-confidence fallback, then exit keywords, then question patterns; the
keyword lists are the source lists verbatim (note that `"I am"`, `"I have"`,
`"I work"` are matched against the lowercased text and thus can never hit). -/
def validate_intent_with_rules (extractAny : String → Bool) (text : String)
    (ai_intent : Intent) (confidence : ℚ) : Intent × ℚ :=
  let tl := pylower text
  if (["my", "is", "I am", "I have", "I work", "income", "age", "name"].any
      (fun k => containsSubstr tl k)) && extractAny text then
    (.provide_info, max confidence (mkRat 7 10))
  else if decide (confidence < mkRat 2 5) && extractAny text then
    (.loan_application, mkRat 7 10)
  else if ["goodbye", "bye", "exit", "stop", "end", "close", "quit"].any
      (fun k => containsSubstr tl k) then
    (.exit, mkRat 9 10)
  else if ["what", "how", "when", "where", "why", "can you", "could you"].any
      (fun k => containsSubstr tl k) then
    (if containsSubstr tl "rate" || containsSubstr tl "interest" then
      (.rate_inquiry, max confidence (mkRat 4 5))
    else (.help_general, max confidence (mkRat 7 10)))
  else (ai_intent, confidence)

/-- `_rule_based_intent_detection`: the keyword cascade used when the model is
unavailable. -/
def rule_based_intent_detection (extractAny : String → Bool)
    (text : String) : Intent :=
  let tl := pylower text
  if ["hello", "hi", "hey", "greetings"].any (containsSubstr tl) then .greeting
  else if ["loan", "borrow", "apply", "need money"].any (containsSubstr tl) then
    .loan_application
  else if ["rate", "interest", "percent"].any (containsSubstr tl) then
    .rate_inquiry
  else if ["negotiate", "lower", "reduce", "better"].any (containsSubstr tl) then
    .negotiate_terms
  else if ["accept", "yes", "agree", "proceed"].any (containsSubstr tl) then
    .accept_offer
  else if ["reject", "no", "decline", "not interested"].any (containsSubstr tl) then
    .reject_offer
  else if ["help", "how", "explain", "what"].any (containsSubstr tl) then
    .help_general
  else if ["exit", "bye", "goodbye", "stop"].any (containsSubstr tl) then .exit
  else if extractAny text then .provide_info
  else .unclear

/-- The AI scoring path of `detect_intent` (steps 1-4 on a cache miss with the
model available): clean the text, score it per intent, boost by the current
stage and last intent, take the arg-max, and validate with the rules. -/
def ai_intent_result (P : ResolverParams) (stage : Stage)
    (last_intent : Option Intent) (text : String) : Intent × ℚ :=
  let t := P.clean text
  let boosted := apply_context_boosting stage last_intent
    (fun i => P.sim t i)
  let best := argmaxIntent boosted
  validate_intent_with_rules P.extractAny t best (boosted best)

/-- `detect_intent`: return the cached pair when the normalized text is in
`self.intent_cache` (no stage check); otherwise fall back to the rule-based
path (uncached, confidence 0.6) when the model is unavailable, else run the
AI path and cache its validated result under the normalized text only,
returning it together with the updated agent state. -/
def detect_intent (P : ResolverParams) (st : ResolverState) (text : String) :
    (Intent × ℚ) × ResolverState :=
  match lookupA st.cache (pytrim (pylower text)) with
  | some r => (r, st)
  | none =>
    if P.modelAvailable = false then
      ((rule_based_intent_detection P.extractAny (P.clean text), mkRat 3 5), st)
    else
      (ai_intent_result P st.stage st.last_intent text,
        { st with cache := (pytrim (pylower text),
            ai_intent_result P st.stage st.last_intent text) :: st.cache })

/-- Concrete resolver collaborators for the cache counterexample: the model is
available, extraction finds nothing, cleaning is the identity, and the scorer
rates every text 0.5 for accept_offer and 0.6 for help_general. -/
def demo_params : ResolverParams :=
  { modelAvailable := true
    sim := fun _ i =>
      if i = .accept_offer then mkRat 1 2
      else if i = .help_general then mkRat 3 5 else 0
    clean := fun t => t
    extractAny := fun _ => false }

end MasterAgent

/-! ## Theorems -/

open UnderwritingAgent SalesAgent FraudDetection MasterAgent

theorem qadd_eq (a b : ℚ) : qadd a b = a + b := by
  have ha : ((a.den : ℤ)) ≠ 0 := by exact_mod_cast a.den_ne_zero
  have hb : ((b.den : ℤ)) ≠ 0 := by exact_mod_cast b.den_ne_zero
  rw [qadd, Rat.mkRat_eq_divInt]
  push_cast
  rw [← Rat.divInt_add_divInt _ _ ha hb, Rat.num_divInt_den, Rat.num_divInt_den]

theorem qsub_eq (a b : ℚ) : qsub a b = a - b := by
  have ha : ((a.den : ℤ)) ≠ 0 := by exact_mod_cast a.den_ne_zero
  have hb : ((b.den : ℤ)) ≠ 0 := by exact_mod_cast b.den_ne_zero
  rw [qsub, Rat.mkRat_eq_divInt]
  push_cast
  rw [← Rat.divInt_sub_divInt _ _ ha hb, Rat.num_divInt_den, Rat.num_divInt_den]

theorem qmul_eq (a b : ℚ) : qmul a b = a * b := by
  rw [qmul, Rat.mkRat_eq_divInt]
  push_cast
  rw [← Rat.divInt_mul_divInt', Rat.num_divInt_den, Rat.num_divInt_den]

theorem qinv_eq (a : ℚ) : qinv a = a⁻¹ := by
  rcases lt_trichotomy a.num 0 with h | h | h
  · have hs : Int.sign a.num = -1 := Int.sign_eq_neg_one_of_neg h
    have habs : (a.num.natAbs : ℤ) = -a.num := Int.ofNat_natAbs_of_nonpos h.le
    rw [qinv, Rat.mkRat_eq_divInt, hs, Rat.inv_def', habs]
    rw [show (-1 : ℤ) * a.den = -(a.den : ℤ) by ring]
    rw [Rat.neg_divInt_neg]
  · have h0 : a = 0 := by
      rw [← Rat.num_eq_zero]
      exact h
    subst h0
    simp [qinv]
  · have hs : Int.sign a.num = 1 := Int.sign_eq_one_of_pos h
    have habs : (a.num.natAbs : ℤ) = a.num := Int.natAbs_of_nonneg h.le
    rw [qinv, Rat.mkRat_eq_divInt, hs, Rat.inv_def', habs, one_mul]

theorem qdiv_eq (a b : ℚ) : qdiv a b = a / b := by
  rw [qdiv, qmul_eq, qinv_eq, div_eq_mul_inv]

theorem qpow_eq (a : ℚ) : ∀ n : ℕ, qpow a n = a ^ n
  | 0 => by simp [qpow]
  | n + 1 => by rw [qpow, qmul_eq, qpow_eq a n, pow_succ, mul_comm]

theorem hard_reject_reason_ne_empty (s : String) :
    (hard_reject s).reason ≠ "" := by
  show "HARD REJECTED: " ++ s ≠ ""
  intro h
  have h2 : ("HARD REJECTED: " ++ s).data = ("" : String).data := by rw [h]
  simp [String.data_append] at h2

/-- C1: `perform_underwriting` evaluates the hard gates in order (age within
[MIN_AGE, MAX_AGE], income at least MIN_INCOME, loan within [50000, MAX_LOAN]);
a failed gate short-circuits with a rejection whose human-readable reason
references the policy bound, the model collaborator is never invoked on that
path (the invocation flag is false and the result is independent of the
model), and in particular age = 70 yields a rejection whose reason cites the
configured age bounds 21 and 60. -/
theorem uw_hard_gates_in_order (model : UwEntities → Option ℚ) (e : UwEntities) :
    (e.age.getD 0 < MIN_AGE ∨ e.age.getD 0 > MAX_AGE →
      perform_underwritingT model e =
        (hard_reject "Age outside policy: 21-60", false) ∧
      containsSubstr (perform_underwriting model e).reason "21" = true ∧
      containsSubstr (perform_underwriting model e).reason "60" = true) ∧
    (¬(e.age.getD 0 < MIN_AGE ∨ e.age.getD 0 > MAX_AGE) →
      e.income.getD 0 < MIN_INCOME →
      perform_underwritingT model e =
        (hard_reject "Income below minimum policy of ₹300,000", false) ∧
      containsSubstr (perform_underwriting model e).reason "300,000" = true) ∧
    (¬(e.age.getD 0 < MIN_AGE ∨ e.age.getD 0 > MAX_AGE) →
      ¬(e.income.getD 0 < MIN_INCOME) →
      (e.loan_amount.getD 0 > MAX_LOAN ∨ e.loan_amount.getD 0 < 50000) →
      perform_underwritingT model e =
        (hard_reject "Loan amount outside policy range", false)) ∧
    ((perform_underwritingT model e).2 = false →
      ∀ model₂, perform_underwriting model₂ e = perform_underwriting model e) ∧
    (e.age = some 70 →
      (perform_underwriting model e).approval_status = false ∧
      (perform_underwritingT model e).2 = false ∧
      containsSubstr (perform_underwriting model e).reason "21" = true ∧
      containsSubstr (perform_underwriting model e).reason "60" = true) := by
  refine ⟨?_, ?_, ?_, ?_, ?_⟩
  · intro h
    have heq : perform_underwritingT model e =
        (hard_reject "Age outside policy: 21-60", false) := by
      unfold perform_underwritingT
      rw [if_pos h]
    refine ⟨heq, ?_, ?_⟩ <;>
      simp only [perform_underwriting, heq] <;> decide
  · intro h₁ h₂
    have heq : perform_underwritingT model e =
        (hard_reject "Income below minimum policy of ₹300,000", false) := by
      unfold perform_underwritingT
      rw [if_neg h₁, if_pos h₂]
    refine ⟨heq, ?_⟩
    simp only [perform_underwriting, heq]
    decide
  · intro h₁ h₂ h₃
    unfold perform_underwritingT
    rw [if_neg h₁, if_neg h₂, if_pos h₃]
  · intro h model₂
    unfold perform_underwritingT at h
    unfold perform_underwriting perform_underwritingT
    by_cases h₁ : e.age.getD 0 < MIN_AGE ∨ e.age.getD 0 > MAX_AGE
    · rw [if_pos h₁, if_pos h₁]
    · by_cases h₂ : e.income.getD 0 < MIN_INCOME
      · rw [if_neg h₁, if_pos h₂, if_neg h₁, if_pos h₂]
      · by_cases h₃ : e.loan_amount.getD 0 > MAX_LOAN ∨ e.loan_amount.getD 0 < 50000
        · rw [if_neg h₁, if_neg h₂, if_pos h₃, if_neg h₁, if_neg h₂, if_pos h₃]
        · exfalso
          rw [if_neg h₁, if_neg h₂, if_neg h₃] at h
          revert h
          by_cases h₄ : ((model e).getD (mkRat 1 2)) > RISK_THRESHOLD_REJECT <;>
            simp [h₄]
  · intro h
    have hage : e.age.getD 0 < MIN_AGE ∨ e.age.getD 0 > MAX_AGE := by
      rw [h]
      right
      show (60 : ℚ) < 70
      norm_num
    have heq : perform_underwritingT model e =
        (hard_reject "Age outside policy: 21-60", false) := by
      unfold perform_underwritingT
      rw [if_pos hage]
    refine ⟨?_, ?_, ?_, ?_⟩ <;> simp only [perform_underwriting, heq] <;> decide

/-- C1 witness: the theorem instantiated at a concrete applicant of age 70 and
a concrete model. -/
theorem uw_hard_gates_in_order_witness :
    (perform_underwriting (fun _ => some (mkRat 1 2))
        { age := some 70 }).approval_status = false ∧
    (perform_underwritingT (fun _ => some (mkRat 1 2)) { age := some 70 }).2 = false ∧
    containsSubstr (perform_underwriting (fun _ => some (mkRat 1 2))
        { age := some 70 }).reason "21" = true ∧
    containsSubstr (perform_underwriting (fun _ => some (mkRat 1 2))
        { age := some 70 }).reason "60" = true :=
  (uw_hard_gates_in_order (fun _ => some (mkRat 1 2)) { age := some 70 }).2.2.2.2 rfl

/-- C2 counterexample: the claim that the hard-gate sentinel risk score 1.0 is
distinct from the risk score of a model-scored rejection is false.  A
hard-gate rejection (age 70) and a model-scored rejection (all gates pass,
model score 0.9 > threshold 0.8) both return risk score 1.0, because the
scored-rejection path reuses `_hard_reject`; the two are indistinguishable by
risk score. -/
theorem uw_sentinel_not_distinct_counterexample :
    (perform_underwriting (fun _ => some (mkRat 9 10))
        { age := some 70 }).approval_status = false ∧
    (perform_underwritingT (fun _ => some (mkRat 9 10)) { age := some 70 }).2 = false ∧
    (perform_underwriting (fun _ => some (mkRat 9 10))
        { age := some 30, income := some 400000,
          loan_amount := some 100000 }).approval_status = false ∧
    (perform_underwritingT (fun _ => some (mkRat 9 10))
        { age := some 30, income := some 400000,
          loan_amount := some 100000 }).2 = true ∧
    (perform_underwriting (fun _ => some (mkRat 9 10)) { age := some 70 }).risk_score =
      (perform_underwriting (fun _ => some (mkRat 9 10))
        { age := some 30, income := some 400000,
          loan_amount := some 100000 }).risk_score := by
  decide

/-- C2 (amended): every rejection returned by `perform_underwriting` has
approval_status false, risk score 1.0, interest_rate null and a nonempty
reason; every approval has approval_status true, an interest rate and a
nonempty reason.  Both the hard-gate path and the model-scored rejection path
set risk score 1.0 (they share `_hard_reject`), so a caller cannot distinguish
them by risk score. -/
theorem uw_result_contract (model : UwEntities → Option ℚ) (e : UwEntities) :
    ((perform_underwriting model e).approval_status = false →
      (perform_underwriting model e).risk_score = 1 ∧
      (perform_underwriting model e).interest_rate = none ∧
      (perform_underwriting model e).reason ≠ "") ∧
    ((perform_underwriting model e).approval_status = true →
      (perform_underwriting model e).interest_rate =
        some (mock_interest_rate ((model e).getD (mkRat 1 2))) ∧
      (perform_underwriting model e).reason ≠ "") := by
  unfold perform_underwriting perform_underwritingT
  by_cases h₁ : e.age.getD 0 < MIN_AGE ∨ e.age.getD 0 > MAX_AGE
  · rw [if_pos h₁]
    exact ⟨fun _ => ⟨rfl, rfl, hard_reject_reason_ne_empty _⟩,
      fun h => by simp [hard_reject] at h⟩
  · rw [if_neg h₁]
    by_cases h₂ : e.income.getD 0 < MIN_INCOME
    · rw [if_pos h₂]
      exact ⟨fun _ => ⟨rfl, rfl, hard_reject_reason_ne_empty _⟩,
        fun h => by simp [hard_reject] at h⟩
    · rw [if_neg h₂]
      by_cases h₃ : e.loan_amount.getD 0 > MAX_LOAN ∨ e.loan_amount.getD 0 < 50000
      · rw [if_pos h₃]
        exact ⟨fun _ => ⟨rfl, rfl, hard_reject_reason_ne_empty _⟩,
          fun h => by simp [hard_reject] at h⟩
      · rw [if_neg h₃]
        by_cases h₄ : ((model e).getD (mkRat 1 2)) > RISK_THRESHOLD_REJECT
        · rw [if_pos h₄]
          exact ⟨fun _ => ⟨rfl, rfl, hard_reject_reason_ne_empty _⟩,
            fun h => by simp [hard_reject] at h⟩
        · rw [if_neg h₄]
          refine ⟨fun h => by simp at h, fun _ => ⟨rfl, ?_⟩⟩
          show "Approved based on policy and low AI risk score." ≠ ""
          decide

/-- C2 (amended) witness: the contract instantiated at a hard-gate rejection. -/
theorem uw_result_contract_witness :
    (perform_underwriting (fun _ => some (mkRat 1 2))
        { age := some 70 }).risk_score = 1 ∧
    (perform_underwriting (fun _ => some (mkRat 1 2))
        { age := some 70 }).interest_rate = none ∧
    (perform_underwriting (fun _ => some (mkRat 1 2))
        { age := some 70 }).reason ≠ "" :=
  (uw_result_contract (fun _ => some (mkRat 1 2)) { age := some 70 }).1 (by decide)

/-- C3: for every approved state carrying a stored rate, `generate_offer` with
negotiation requested returns and stores the rate `negotiated_rate r =
max BASE_RATE (r − NEGOTIATION_DECREMENT)` — the decrement reapplies to the
currently stored rate, not cumulatively; the rate never drops below BASE_RATE,
and across repeated negotiate calls (iterating the step on the stored rate,
starting at or above BASE_RATE) it is non-increasing. -/
theorem sales_negotiation_rate (s : SalesState) (r : ℚ)
    (happ : s.approval_status = some true) (hr : s.interest_rate = some r) :
    generate_offer s true =
      some ({ offer_type := "negotiated", action := "wait_for_offer_decision",
              interest_rate := some (negotiated_rate r), new_amount := none },
            { s with interest_rate := some (negotiated_rate r) }) ∧
    negotiated_rate r = max BASE_RATE (r - NEGOTIATION_DECREMENT) ∧
    BASE_RATE ≤ negotiated_rate r ∧
    (BASE_RATE ≤ r → negotiated_rate r ≤ r) ∧
    (∀ n : ℕ, BASE_RATE ≤ negotiated_rate^[n + 1] r) ∧
    (BASE_RATE ≤ r → ∀ n : ℕ,
      negotiated_rate^[n + 1] r ≤ negotiated_rate^[n] r) := by
  have hstep : ∀ x : ℚ, negotiated_rate x = max BASE_RATE (x - NEGOTIATION_DECREMENT) := by
    intro x
    rw [negotiated_rate, qsub_eq]
  have hfloor : ∀ x : ℚ, BASE_RATE ≤ negotiated_rate x := by
    intro x
    rw [hstep]
    exact le_max_left _ _
  have hdec : ∀ x : ℚ, BASE_RATE ≤ x → negotiated_rate x ≤ x := by
    intro x hx
    rw [hstep]
    refine max_le hx ?_
    have : (0 : ℚ) ≤ NEGOTIATION_DECREMENT := by
      rw [NEGOTIATION_DECREMENT]
      norm_num
    linarith
  refine ⟨?_, hstep r, hfloor r, hdec r, ?_, ?_⟩
  · unfold generate_offer
    rw [happ, hr]
    simp [format_offer_message]
  · intro n
    rw [Function.iterate_succ_apply']
    exact hfloor _
  · intro hbr n
    rw [Function.iterate_succ_apply']
    apply hdec
    cases n with
    | zero => exact hbr
    | succ m =>
      rw [Function.iterate_succ_apply']
      exact hfloor _

/-- C3 witness: negotiating twice from a stored rate of 12.0 yields 11.5 and
then 11.0, with the floor 9.5 respected. -/
theorem sales_negotiation_rate_witness :
    generate_offer ⟨some 1000000, some 60, some (mkRat 1 10), some true, some 12⟩ true =
      some ({ offer_type := "negotiated", action := "wait_for_offer_decision",
              interest_rate := some (negotiated_rate 12), new_amount := none },
            ⟨some 1000000, some 60, some (mkRat 1 10), some true,
              some (negotiated_rate 12)⟩) ∧
    negotiated_rate 12 = mkRat 23 2 ∧
    generate_offer ⟨some 1000000, some 60, some (mkRat 1 10), some true,
        some (mkRat 23 2)⟩ true =
      some ({ offer_type := "negotiated", action := "wait_for_offer_decision",
              interest_rate := some (negotiated_rate (mkRat 23 2)), new_amount := none },
            ⟨some 1000000, some 60, some (mkRat 1 10), some true,
              some (negotiated_rate (mkRat 23 2))⟩) ∧
    negotiated_rate (mkRat 23 2) = 11 ∧
    BASE_RATE ≤ negotiated_rate 12 ∧ negotiated_rate 12 ≤ 12 :=
  ⟨(sales_negotiation_rate
      ⟨some 1000000, some 60, some (mkRat 1 10), some true, some 12⟩ 12 rfl rfl).1,
   by decide,
   (sales_negotiation_rate
      ⟨some 1000000, some 60, some (mkRat 1 10), some true, some (mkRat 23 2)⟩
      (mkRat 23 2) rfl rfl).1,
   by decide,
   (sales_negotiation_rate
      ⟨some 1000000, some 60, some (mkRat 1 10), some true, some 12⟩ 12 rfl rfl).2.2.1,
   (sales_negotiation_rate
      ⟨some 1000000, some 60, some (mkRat 1 10), some true, some 12⟩ 12 rfl rfl).2.2.2.1
     (by decide)⟩

/-- C4 counterexample: at zero rate the code returns `P / n` unrounded, so the
result is not always rounded to the currency's smallest unit:
`_calculate_emi(100, 0, 3)` is 100/3, not an integer, and differs from the
spec formula (which rounds every branch). -/
theorem emi_zero_rate_unrounded_counterexample :
    calculate_emi 100 0 3 = mkRat 100 3 ∧
    (calculate_emi 100 0 3).den ≠ 1 ∧
    spec_emi 100 0 3 = 33 ∧
    calculate_emi 100 0 3 ≠ spec_emi 100 0 3 := by
  have h1 : calculate_emi 100 0 3 = mkRat 100 3 := by decide
  have h2 : ((100 : ℚ) / 3) = mkRat 100 3 := by
    rw [Rat.mkRat_eq_divInt, Rat.divInt_eq_div]
    norm_num
  have h3 : spec_emi 100 0 3 = 33 := by
    unfold spec_emi
    norm_num
    rw [h2]
    decide
  refine ⟨h1, by decide, h3, ?_⟩
  rw [h1, h3]
  decide

set_option maxRecDepth 4000 in
theorem emi_million : calculate_emi 1000000 12 60 = 22244 := by decide

/-- C4 (amended): `_calculate_emi` is a pure function of principal, annual
rate and tenure in months; when the monthly rate is nonzero it equals the
closed-form amortization formula rounded half-to-even to the currency's
smallest unit (i.e. the spec formula), when the monthly rate is zero it
returns `P/n` exactly (unrounded); and EMI(1,000,000, 12%, 60 months) =
22,244. -/
theorem emi_closed_form (P rate : ℚ) (n : ℕ) :
    (rate / 12 / 100 = 0 → calculate_emi P rate n = P / n) ∧
    (rate / 12 / 100 ≠ 0 → calculate_emi P rate n = spec_emi P rate n) ∧
    calculate_emi 1000000 12 60 = 22244 := by
  have hq : qdiv (qdiv rate 12) 100 = rate / 12 / 100 := by
    rw [qdiv_eq, qdiv_eq]
  refine ⟨?_, ?_, emi_million⟩
  · intro h
    unfold calculate_emi
    simp only [hq, h, if_true, eq_self_iff_true, qdiv_eq]
  · intro h
    unfold calculate_emi spec_emi
    simp only [hq, if_neg h, qadd_eq, qsub_eq, qmul_eq, qdiv_eq, qpow_eq]

/-- C4 witness: the amended theorem instantiated at both branches — the
zero-rate branch at (100, 0, 3) and the amortization branch at
(1,000,000, 12, 60). -/
theorem emi_closed_form_witness :
    calculate_emi 100 0 3 = (100 : ℚ) / 3 ∧
    calculate_emi 1000000 12 60 = spec_emi 1000000 12 60 ∧
    calculate_emi 1000000 12 60 = 22244 :=
  ⟨(emi_closed_form 100 0 3).1 (by norm_num),
   (emi_closed_form 1000000 12 60).2.1 (by norm_num),
   (emi_closed_form 1000000 12 60).2.2⟩

theorem age_score_le_one (today : Date) (dob : Option String) :
    age_score today dob ≤ 1 := by
  unfold age_score
  cases dob with
  | none => norm_num
  | some s =>
    by_cases h1 : pytrim s = ""
    · simp only [h1, if_pos rfl]
      norm_num
    · simp only [if_neg h1]
      cases parseDOB (pytrim s) with
      | none => norm_num
      | some birth =>
        simp only []
        split_ifs <;> decide

theorem mem_pairSims_le_one (sim : String → String → ℚ)
    (hsim : ∀ a b, sim a b ≤ 1) :
    ∀ l : List String, ∀ x ∈ pairSims sim l, x ≤ 1 := by
  intro l
  induction l with
  | nil => intro x hx; simp [pairSims] at hx
  | cons a as ih =>
    intro x hx
    rw [pairSims, List.mem_append] at hx
    rcases hx with hx | hx
    · rcases List.mem_map.1 hx with ⟨b, _, rfl⟩
      exact hsim a b
    · exact ih x hx

theorem qsum_le_length (l : List ℚ) (h : ∀ x ∈ l, x ≤ 1) :
    qsum l ≤ (l.length : ℚ) := by
  induction l with
  | nil => simp [qsum]
  | cons a as ih =>
    rw [qsum, qadd_eq, List.length_cons]
    have ha : a ≤ 1 := h a (List.mem_cons_self a as)
    have has : qsum as ≤ (as.length : ℚ) :=
      ih (fun x hx => h x (List.mem_cons_of_mem a hx))
    push_cast
    linarith

theorem name_score_le_one (sim : String → String → ℚ)
    (hsim : ∀ a b, sim a b ≤ 1) (names : List String) :
    (name_score sim names).1 ≤ 1 := by
  unfold name_score
  set cleaned := (names.filter
    (fun n => !(n = "") && !(pytrim n = ""))).map (fun n => pylower (pytrim n))
  by_cases hlen : cleaned.length < 2
  · simp only [if_pos hlen]
    norm_num
  · simp only [if_neg hlen]
    set L := pairSims sim cleaned with hL
    show qdiv (qsum L) (L.length : ℚ) ≤ 1
    rw [qdiv_eq]
    rcases Nat.eq_zero_or_pos L.length with h0 | hpos
    · rw [h0]
      norm_num
    · have hlenpos : (0 : ℚ) < (L.length : ℚ) := by exact_mod_cast hpos
      rw [div_le_one hlenpos]
      exact qsum_le_length L (mem_pairSims_le_one sim hsim cleaned)

/-- C5 counterexample: with declared income 0 and perfect name and age
sub-scores the composite fraud score is 2/3, which exceeds the claimed bound
0.34; moreover the income component returns (1, LOW) — not (0.3, MEDIUM) — at
declared income exactly 10,000, which lies outside the open interval
(10,000, 10,000,000). -/
theorem fraud_composite_counterexample :
    fraud_score (fun _ _ => 1) ⟨2026, 10, 12⟩
      ⟨some (some ["Riya Sharma"]), some (some "1996-05-20"), some (some 0)⟩ =
      .ok (mkRat 2 3) ∧
    (name_score (fun _ _ => (1 : ℚ)) ["Riya Sharma"]).1 = 1 ∧
    age_score ⟨2026, 10, 12⟩ (some "1996-05-20") = 1 ∧
    income_score (some 0) = (0, "HIGH") ∧
    ¬(mkRat 2 3 ≤ mkRat 34 100) ∧
    income_score (some 10000) = (1, "LOW") := by
  decide

/-- C5 (amended): the composite fraud score is the arithmetic mean of the
name, age and income component scores; the income component returns (0, HIGH)
when income is absent or at most 0, (0.3, MEDIUM) when income is strictly
below 10,000 or strictly above 10,000,000 (the boundary values 10,000 and
10,000,000 score (1, LOW)), and (1, LOW) otherwise; with declared income 0
the income sub-score is 0 with flag HIGH, and the composite score is at most
2/3 — not 0.34 — even when the name and age sub-scores are perfect. -/
theorem fraud_income_and_composite (sim : String → String → ℚ) (today : Date)
    (names : List String) (dobv : Option String) :
    (income_score none = (0, "HIGH")) ∧
    (∀ q : ℚ, q ≤ 0 → income_score (some q) = (0, "HIGH")) ∧
    (∀ q : ℚ, 0 < q → (q < 10000 ∨ q > 10000000) →
      income_score (some q) = (mkRat 3 10, "MEDIUM")) ∧
    (∀ q : ℚ, 10000 ≤ q → q ≤ 10000000 → income_score (some q) = (1, "LOW")) ∧
    (∀ inc : Option ℚ,
      fraud_score sim today ⟨some (some names), some dobv, some inc⟩ =
        .ok (((name_score sim names).1 + age_score today dobv +
          (income_score inc).1) / 3)) ∧
    ((∀ a b, sim a b ≤ 1) → ∀ q : ℚ,
      fraud_score sim today ⟨some (some names), some dobv, some (some 0)⟩ =
        .ok q → q ≤ 2/3) := by
  have hmean : ∀ inc : Option ℚ,
      fraud_score sim today ⟨some (some names), some dobv, some inc⟩ =
        .ok (((name_score sim names).1 + age_score today dobv +
          (income_score inc).1) / 3) := by
    intro inc
    unfold fraud_score
    simp only [qadd_eq, qdiv_eq]
  refine ⟨rfl, ?_, ?_, ?_, hmean, ?_⟩
  · intro q hq
    simp only [income_score]
    rw [if_pos hq]
  · intro q hq0 hq
    simp only [income_score]
    rw [if_neg (not_le.mpr hq0), if_pos (Or.symm hq)]
  · intro q h1 h2
    simp only [income_score]
    rw [if_neg (by linarith), if_neg (by push_neg; constructor <;> linarith)]
  · intro hsim q hq
    rw [hmean (some 0)] at hq
    have hinc : (income_score (some 0)).1 = 0 := by decide
    rw [hinc] at hq
    have hn := name_score_le_one sim hsim names
    have ha := age_score_le_one today dobv
    injection hq with hq2
    subst hq2
    linarith

/-- C5 (amended) witness: the income cases and the 2/3 composite bound
instantiated at a concrete customer with income 0 and perfect name/age
scores. -/
theorem fraud_income_and_composite_witness :
    income_score (some 0) = (0, "HIGH") ∧
    income_score (some 5000) = (mkRat 3 10, "MEDIUM") ∧
    income_score (some 10000) = (1, "LOW") ∧
    fraud_score (fun _ _ => 1) ⟨2026, 10, 12⟩
      ⟨some (some ["Riya Sharma"]), some (some "1996-05-20"), some (some 0)⟩ =
      .ok (mkRat 2 3) ∧
    (mkRat 2 3 : ℚ) ≤ 2/3 :=
  ⟨(fraud_income_and_composite (fun _ _ => 1) ⟨2026, 10, 12⟩ ["Riya Sharma"]
      (some "1996-05-20")).2.1 0 le_rfl,
   (fraud_income_and_composite (fun _ _ => 1) ⟨2026, 10, 12⟩ ["Riya Sharma"]
      (some "1996-05-20")).2.2.1 5000 (by norm_num) (by norm_num),
   (fraud_income_and_composite (fun _ _ => 1) ⟨2026, 10, 12⟩ ["Riya Sharma"]
      (some "1996-05-20")).2.2.2.1 10000 (by norm_num) (by norm_num),
   by decide,
   (fraud_income_and_composite (fun _ _ => 1) ⟨2026, 10, 12⟩ ["Riya Sharma"]
      (some "1996-05-20")).2.2.2.2.2 (fun _ _ => le_rfl) (mkRat 2 3) (by decide)⟩

/-- C6 counterexample: fraud evaluation is not total — a `cust_data` record
whose `name_list` key is absent makes `fraud_score` raise `KeyError` instead
of degrading that component and returning a number. -/
theorem fraud_missing_key_counterexample :
    fraud_score (fun _ _ => 1) ⟨2026, 10, 12⟩
      ⟨none, some (some "1996-05-20"), some (some 500000)⟩ =
      .error "KeyError: name_list" := by
  decide

/-- C6 (amended): when the three keys are present and `name_list` holds a
list, `fraud_score` always returns a number, with a `None` date of birth or a
`None` declared income degrading that component to its worst-case score 0 (a
missing name signal degrades to the neutral score 1.0); but an absent dict key
raises `KeyError`, and a present `name_list` key holding `None` raises
`TypeError`, rather than degrading. -/
theorem fraud_total_given_keys (sim : String → String → ℚ) (today : Date) :
    (∀ names dobv inc, ∃ q : ℚ,
      fraud_score sim today ⟨some (some names), some dobv, some inc⟩ = .ok q) ∧
    (∀ cust : CustData, cust.name_list = none →
      fraud_score sim today cust = .error "KeyError: name_list") ∧
    (∀ cust : CustData, cust.name_list = some none →
      fraud_score sim today cust =
        .error "TypeError: NoneType name_list is not iterable") ∧
    (∀ cust : CustData, cust.name_list.isSome → cust.dob = none →
      (cust.name_list.getD none).isSome →
      fraud_score sim today cust = .error "KeyError: dob") ∧
    age_score today none = 0 ∧
    income_score none = (0, "HIGH") ∧
    (name_score sim []).1 = 1 := by
  refine ⟨?_, ?_, ?_, ?_, rfl, rfl, rfl⟩
  · intro names dobv inc
    exact ⟨_, rfl⟩
  · intro cust h
    unfold fraud_score
    rw [h]
  · intro cust h
    unfold fraud_score
    rw [h]
  · intro cust h1 h2 h3
    unfold fraud_score
    rcases hnl : cust.name_list with _ | nl
    · rw [hnl] at h1
      simp at h1
    · rcases hnl2 : nl with _ | names
      · rw [hnl, hnl2] at h3
        simp at h3
      · rw [h2]

/-- C6 (amended) witness: the totality and the error cases instantiated at
concrete records. -/
theorem fraud_total_given_keys_witness :
    (∃ q : ℚ, fraud_score (fun _ _ => 1) ⟨2026, 10, 12⟩
      ⟨some (some ["A"]), some none, some none⟩ = .ok q) ∧
    fraud_score (fun _ _ => 1) ⟨2026, 10, 12⟩
      ⟨none, some (some "1996-05-20"), some (some 1)⟩ =
      .error "KeyError: name_list" ∧
    fraud_score (fun _ _ => 1) ⟨2026, 10, 12⟩
      ⟨some none, some (some "1996-05-20"), some (some 1)⟩ =
      .error "TypeError: NoneType name_list is not iterable" :=
  ⟨(fraud_total_given_keys (fun _ _ => 1) ⟨2026, 10, 12⟩).1 ["A"] none none,
   (fraud_total_given_keys (fun _ _ => 1) ⟨2026, 10, 12⟩).2.1 _ rfl,
   (fraud_total_given_keys (fun _ _ => 1) ⟨2026, 10, 12⟩).2.2.1 _ rfl⟩

theorem documentation_not_accepted (st : MasterState)
    (h : st.offer_accepted = false) :
    documentation st = (.offer_not_accepted, st) ∧
    backend_generate_letter st = (.offer_not_accepted, st) := by
  unfold documentation backend_generate_letter
  rw [h]
  exact ⟨if_pos rfl, if_pos rfl⟩

theorem apply_entities_stage (ents : List (Field × Option String)) :
    ∀ st : MasterState, (apply_entities ents st).stage = st.stage := by
  induction ents with
  | nil => intro st; rfl
  | cons kv rest ih =>
    intro st
    rw [apply_entities, ih]
    cases kv.2 <;> rfl

theorem apply_entities_offer_accepted (ents : List (Field × Option String)) :
    ∀ st : MasterState, (apply_entities ents st).offer_accepted =
      st.offer_accepted := by
  induction ents with
  | nil => intro st; rfl
  | cons kv rest ih =>
    intro st
    rw [apply_entities, ih]
    cases kv.2 <;> rfl

theorem handle_state_transition_closed (intent : Intent) (st : MasterState)
    (h : st.stage = .closed) : handle_state_transition intent st = st := by
  have h1 : ¬(st.stage = .collecting ∧ st.missing_fields = []) := by
    rw [h]
    simp
  have h2 : ¬(st.stage = .kyc ∧ st.missing_kyc_fields = []) := by
    rw [h]
    simp
  unfold handle_state_transition
  rw [if_neg h1, if_neg h2, h]

theorem handle_state_transition_offer_accepted (intent : Intent)
    (st : MasterState) :
    (handle_state_transition intent st).offer_accepted = st.offer_accepted := by
  unfold handle_state_transition
  split_ifs
  · rfl
  · rfl
  · cases hs : st.stage <;> cases intent <;> rfl

theorem update_state_closed (ents : List (Field × Option String))
    (intent : Intent) (st : MasterState) (h : st.stage = .closed) :
    (update_state ents intent st).stage = .closed := by
  unfold update_state
  rw [handle_state_transition_closed]
  · show (apply_entities ents st).stage = .closed
    rw [apply_entities_stage ents st, h]
  · show (apply_entities ents st).stage = .closed
    rw [apply_entities_stage ents st, h]

/-- C7 counterexample: Closed is not terminal under the engine callbacks — on
a state whose stage is Closed, `set_underwriting_result` moves the stage to
Offer (approval) or RejectionCounseling, and `set_fraud_check_result` moves it
to Documentation (passed), without checking the current stage. -/
theorem closed_not_terminal_counterexample :
    (set_underwriting_result (mkRat 1 2) true (some 12) none
      { initialize_state with stage := .closed }).stage = Stage.offer ∧
    (set_fraud_check_result true
      { initialize_state with stage := .closed }).stage = Stage.documentation ∧
    Stage.offer ≠ Stage.closed ∧ Stage.documentation ≠ Stage.closed :=
  ⟨rfl, rfl, by decide, by decide⟩

/-- C7 (amended): Closed is terminal for every intent-driven step — a handled
user turn (`update_state`, hence `_handle_state_transition`) applied to a
Closed state leaves the stage Closed, and only an explicit reset, which
creates the fresh initial state, leaves Closed; the engine callbacks
(`set_underwriting_result`, `set_fraud_check_result`), however, overwrite the
stage unconditionally and do move a Closed session. -/
theorem closed_terminal_for_intents (ents : List (Field × Option String))
    (intent : Intent) (st : MasterState) (h : st.stage = .closed) :
    (update_state ents intent st).stage = .closed ∧
    handle_state_transition intent st = st ∧
    reset_conversation = initialize_state ∧
    initialize_state.stage = .greeting ∧
    (set_underwriting_result (mkRat 1 2) true (some 12) none st).stage = .offer :=
  ⟨update_state_closed ents intent st h,
   handle_state_transition_closed intent st h, rfl, rfl, by
     unfold set_underwriting_result
     rfl⟩

/-- C7 (amended) witness: the terminality of Closed under a handled user turn,
at a concrete closed state and intent. -/
theorem closed_terminal_for_intents_witness :
    (update_state [(.name, some "A")] .accept_offer
      { initialize_state with stage := .closed }).stage = Stage.closed ∧
    handle_state_transition .accept_offer
      { initialize_state with stage := .closed } =
      { initialize_state with stage := .closed } ∧
    reset_conversation = initialize_state :=
  ⟨(closed_terminal_for_intents [(.name, some "A")] .accept_offer _ rfl).1,
   (closed_terminal_for_intents [(.name, some "A")] .accept_offer _ rfl).2.1,
   (closed_terminal_for_intents [(.name, some "A")] .accept_offer
      { initialize_state with stage := .closed } rfl).2.2.1⟩

/-- C8: a documentation request on any session state with `offer_accepted`
false returns the specific precondition-not-met failure
(`offer_not_accepted`, HTTP 400) and leaves the state unchanged, regardless of
every other field — in both app.py's `/documentation` and backend/app.py's
`/generate-letter`. -/
theorem documentation_precondition (st : MasterState)
    (h : st.offer_accepted = false) :
    documentation st = (.offer_not_accepted, st) ∧
    backend_generate_letter st = (.offer_not_accepted, st) :=
  documentation_not_accepted st h

/-- C8 witness: the precondition failure at a concrete state (fresh session
with stage forced to Documentation and KYC fields present, offer still not
accepted). -/
theorem documentation_precondition_witness :
    documentation
      { initialize_state with
        stage := .documentation
        entities := fun _ => some "x" } =
      (.offer_not_accepted,
        { initialize_state with
          stage := .documentation
          entities := fun _ => some "x" }) ∧
    backend_generate_letter
      { initialize_state with
        stage := .documentation
        entities := fun _ => some "x" } =
      (.offer_not_accepted,
        { initialize_state with
          stage := .documentation
          entities := fun _ => some "x" }) :=
  documentation_precondition
    { initialize_state with
      stage := .documentation
      entities := fun _ => some "x" } rfl

theorem apply_op_offer_accepted (op : MOp) (st : MasterState)
    (h : st.offer_accepted = false) :
    (apply_op op st).offer_accepted = false := by
  cases op with
  | user ents intent =>
    show (update_state ents intent st).offer_accepted = false
    unfold update_state
    rw [handle_state_transition_offer_accepted]
    show (apply_entities ents st).offer_accepted = false
    rw [apply_entities_offer_accepted ents st, h]
  | underwriting_result r a rate od =>
    show (set_underwriting_result r a rate od st).offer_accepted = false
    unfold set_underwriting_result
    cases a with
    | false => exact h
    | true => cases od <;> exact h
  | fraud_result p =>
    show (set_fraud_check_result p st).offer_accepted = false
    unfold set_fraud_check_result
    cases p <;> exact h
  | reset => rfl

/-- C10: in every state reachable from a freshly initialized session through
any sequence of handled user turns (entity merges, stage transitions), engine
callbacks, and resets, `offer_accepted` remains false — it is initialized to
false and no operation sets it (in particular the Offer→Kyc transition on
accept_offer does not) — so both documentation endpoints' offer-acceptance
precondition always fails. -/
theorem offer_accepted_never_true (ops : List MOp) :
    (run_ops ops).offer_accepted = false ∧
    documentation (run_ops ops) = (.offer_not_accepted, run_ops ops) ∧
    backend_generate_letter (run_ops ops) =
      (.offer_not_accepted, run_ops ops) := by
  have hinv : ∀ (l : List MOp) (st : MasterState), st.offer_accepted = false →
      (l.foldl (fun s op => apply_op op s) st).offer_accepted = false := by
    intro l
    induction l with
    | nil => intro st h; exact h
    | cons op rest ih =>
      intro st h
      rw [List.foldl_cons]
      exact ih _ (apply_op_offer_accepted op st h)
  have h : (run_ops ops).offer_accepted = false := hinv ops initialize_state rfl
  exact ⟨h, (documentation_not_accepted _ h).1, (documentation_not_accepted _ h).2⟩

theorem lookupA_cons_self (k : String) (v : Intent × ℚ)
    (c : List (String × (Intent × ℚ))) : lookupA ((k, v) :: c) k = some v := by
  unfold lookupA
  rw [if_pos rfl]

set_option maxRecDepth 20000 in
/-- C9 counterexample: the cache is keyed by normalized text only, but stores
the post-boosting, post-validation result — so a result computed under the
Offer stage's boosting (accept_offer, 0.7) is reused verbatim for a later call
made at the Greeting stage, where a fresh computation would give
(help_general, 0.6). -/
theorem detect_intent_cross_stage_reuse_counterexample :
    (detect_intent demo_params ⟨.offer, none, []⟩ "okay then").1 =
      (.accept_offer, mkRat 7 10) ∧
    (detect_intent demo_params
      ⟨.greeting, none,
        (detect_intent demo_params ⟨.offer, none, []⟩ "okay then").2.cache⟩
      "okay then").1 = (.accept_offer, mkRat 7 10) ∧
    (detect_intent demo_params ⟨.greeting, none, []⟩ "okay then").1 =
      (.help_general, mkRat 3 5) ∧
    ((.accept_offer, mkRat 7 10) : Intent × ℚ) ≠ (.help_general, mkRat 3 5) := by
  refine ⟨by decide, by decide, by decide, by decide⟩

/-- C9 (amended): intent resolution is deterministic — `detect_intent` is a
pure function of the resolver inputs, so two invocations with the same text
and the same resolver state (stage, last intent, cache) return the same
(intent, confidence) pair, and an immediately repeated call returns the first
call's result; however the cache stores the boosted, validated result keyed by
normalized text only, so the cached pair is returned unchanged even when the
stage has changed between the calls (boosting IS effectively cached across
stages). -/
theorem detect_intent_cache_determinism (P : ResolverParams)
    (st : ResolverState) (t : String) :
    (detect_intent P ((detect_intent P st t).2) t).1 =
      (detect_intent P st t).1 ∧
    (∀ s₂ : Stage,
      (detect_intent P { (detect_intent P st t).2 with stage := s₂ } t).1 =
        (detect_intent P st t).1) ∧
    (∀ st₂ : ResolverState, st₂.stage = st.stage →
      st₂.last_intent = st.last_intent → st₂.cache = st.cache →
      (detect_intent P st₂ t).1 = (detect_intent P st t).1) := by
  have heta : ∀ st₂ : ResolverState, st₂.stage = st.stage →
      st₂.last_intent = st.last_intent → st₂.cache = st.cache → st₂ = st := by
    intro st₂ h1 h2 h3
    cases st₂
    cases st
    simp only at h1 h2 h3
    rw [h1, h2, h3]
  have hcached : ∀ (st' : ResolverState) (r : Intent × ℚ),
      lookupA st'.cache (pytrim (pylower t)) = some r →
      detect_intent P st' t = (r, st') := by
    intro st' r h
    unfold detect_intent
    rw [h]
  cases hl : lookupA st.cache (pytrim (pylower t)) with
  | some r =>
    have h1 : detect_intent P st t = (r, st) := hcached st r hl
    refine ⟨?_, ?_, ?_⟩
    · rw [h1, hcached st r hl]
    · intro s₂
      rw [h1, hcached { st with stage := s₂ } r hl]
    · intro st₂ e1 e2 e3
      rw [heta st₂ e1 e2 e3]
  | none =>
    by_cases hm : P.modelAvailable = false
    · have h0 : ∀ st' : ResolverState,
          lookupA st'.cache (pytrim (pylower t)) = none →
          detect_intent P st' t =
            ((rule_based_intent_detection P.extractAny (P.clean t), mkRat 3 5),
              st') := by
        intro st' h
        unfold detect_intent
        rw [h, if_pos hm]
      have h1 := h0 st hl
      refine ⟨?_, ?_, ?_⟩
      · rw [h1, h0 st hl]
      · intro s₂
        rw [h1, h0 { st with stage := s₂ } hl]
      · intro st₂ e1 e2 e3
        rw [heta st₂ e1 e2 e3]
    · have h1 : detect_intent P st t =
          (ai_intent_result P st.stage st.last_intent t,
            { st with cache := (pytrim (pylower t),
                ai_intent_result P st.stage st.last_intent t) :: st.cache }) := by
        unfold detect_intent
        rw [hl, if_neg hm]
      refine ⟨?_, ?_, ?_⟩
      · rw [h1, hcached _ _ (lookupA_cons_self _ _ _)]
      · intro s₂
        rw [h1, hcached _ _ (lookupA_cons_self _ _ _)]
      · intro st₂ e1 e2 e3
        rw [heta st₂ e1 e2 e3]

/-- C9 (amended) witness: repeat-call determinism and equal-state determinism
at the concrete resolver state and text of the counterexample scenario. -/
theorem detect_intent_cache_determinism_witness :
    (detect_intent demo_params
      ((detect_intent demo_params ⟨.offer, none, []⟩ "okay then").2)
      "okay then").1 =
      (detect_intent demo_params ⟨.offer, none, []⟩ "okay then").1 ∧
    (detect_intent demo_params ⟨.greeting, none, []⟩ "okay then").1 =
      (detect_intent demo_params ⟨.greeting, none, []⟩ "okay then").1 :=
  ⟨(detect_intent_cache_determinism demo_params ⟨.offer, none, []⟩ "okay then").1,
   (detect_intent_cache_determinism demo_params ⟨.greeting, none, []⟩
      "okay then").2.2 ⟨.greeting, none, []⟩ rfl rfl rfl⟩

end CredGen
